import Mathlib

/-!
Shallow embedding of `src/main/resources/generate_property_files.py`, a script
that synthesizes 1000 fictitious lodging-property records and serializes them
as one JSON document.

Modelling conventions:
* Python's module-level `random` generator (seeded with `random.seed(1234)`) is
  modelled by `PyRand`: an oracle assigning to each draw position a natural
  number (consumed by `random.choice` / `random.randint`, which are built on
  `_randbelow`) and a rational number in `[0, 1)` (consumed by
  `random.uniform`, which is built on `random.random()`).  A fixed seed fixes
  the two oracle streams; the position counter advances by one per draw.
* Faker (seeded with `Faker.seed(1234)`, a separate generator from `random`) is
  modelled by `FakerGen`: oracle streams for `company()`, `city()`,
  `address()`, `phone_number()`, indexed by the locale string and a shared
  position counter that advances by one per call.
* Python floats appearing here (prices, commissions) are modelled as exact
  rationals; `round(x, 2)` is modelled by `pyRound2`, exact round-half-to-even
  at two decimals, which is Python 3's rounding rule.
* The Python `set` used in `unique_property_names`, and the iteration order of
  `list(names)`, is modelled by an insertion-ordered duplicate-free list
  together with a `setOrder` parameter: CPython's set iteration order for
  strings is a function of the per-process string hash salt (PYTHONHASHSEED),
  which is an input distinct from the two seeded generators.
* The unbounded `while` loop in `unique_property_names` is given explicit
  fuel; exhausting the fuel yields `none`.
-/

/-- Oracle model of the seeded `random` module generator: `ints p` is the value
behind the `p`-th draw when consumed by an integer-based call
(`choice`/`randint`), `units p` the value behind the `p`-th draw when consumed
by `random.uniform` (a real in `[0,1)`), `pos` the number of draws made. -/
structure PyRand where
  ints : Nat → Nat
  units : Nat → ℚ
  pos : Nat

/-- Advance the generator by `k` draws. -/
def PyRand.bump (g : PyRand) (k : Nat) : PyRand :=
  { g with pos := g.pos + k }

/-- One integer-based draw (`_randbelow` source value). -/
def PyRand.nextInt (g : PyRand) : Nat × PyRand :=
  (g.ints g.pos, g.bump 1)

/-- One `random.random()` draw. -/
def PyRand.nextUnit (g : PyRand) : ℚ × PyRand :=
  (g.units g.pos, g.bump 1)

/-- `random.choice(xs)`: `xs[_randbelow(len(xs))]`. -/
def choice (xs : List String) (g : PyRand) : String × PyRand :=
  let t := g.nextInt
  (xs.getD (t.1 % xs.length) "", t.2)

/-- `random.randint(a, b)`: a uniform integer in `[a, b]`. -/
def randint (a b : Nat) (g : PyRand) : Nat × PyRand :=
  let t := g.nextInt
  (a + t.1 % (b - a + 1), t.2)

/-- `random.uniform(a, b)`: `a + (b-a) * random.random()`. -/
def uniform (a b : ℚ) (g : PyRand) : ℚ × PyRand :=
  let t := g.nextUnit
  (a + (b - a) * t.1, t.2)

/-- `random.sample(xs, k)`: `k` elements drawn without replacement. -/
def sample (xs : List String) : Nat → PyRand → List String × PyRand
  | 0, g => ([], g)
  | k + 1, g =>
    let t := g.nextInt
    let j := t.1 % xs.length
    let rest := sample (xs.eraseIdx j) k t.2
    (xs.getD j "" :: rest.1, rest.2)

/-- `random.shuffle(xs)`: a generator-driven permutation of `xs`, modelled as
drawing all of `xs` without replacement. -/
def shuffle (xs : List String) (g : PyRand) : List String × PyRand :=
  sample xs xs.length g

/-- Python 3 `round(q, 2)`: round to two decimals, ties to even. -/
def pyRound2 (q : ℚ) : ℚ :=
  let s := 100 * q
  let fl : ℤ := ⌊s⌋
  let fr : ℚ := s - fl
  let r : ℤ :=
    if fr < 1/2 then fl
    else if 1/2 < fr then fl + 1
    else if 2 ∣ fl then fl else fl + 1
  (r : ℚ) / 100

/-- A whole number of cents. -/
def isCents (q : ℚ) : Prop := ∃ z : ℤ, q = (z : ℚ) / 100

/-- Python `str.lower()` (character-wise). -/
def strLower (s : String) : String :=
  String.mk (s.data.map Char.toLower)

/-- Kernel of single-character `str.replace`. -/
def replaceCharAux (c : Char) (r : String) : List Char → List Char
  | [] => []
  | a :: rest => (if a = c then r.data else [a]) ++ replaceCharAux c r rest

/-- Python `s.replace(c, r)` for a single-character pattern `c`. -/
def strReplaceChar (s : String) (c : Char) (r : String) : String :=
  String.mk (replaceCharAux c r s.data)

/-- Does `pat` start `s`? (helper for the Python `in` substring test). -/
def leadsWith : List Char → List Char → Bool
  | [], _ => true
  | _ :: _, [] => false
  | a :: as, b :: bs => a = b && leadsWith as bs

/-- Does `pat` occur as a contiguous substring? -/
def hasSub (pat : List Char) : List Char → Bool
  | [] => pat.isEmpty
  | b :: bs => leadsWith pat (b :: bs) || hasSub pat bs

/-- Python `pat in s` substring containment. -/
def strContains (s pat : String) : Bool :=
  hasSub pat.data s.data

/-- Oracle model of the seeded Faker generators.  All Faker instances share one
underlying seeded random source; each call consumes one position.  The string
argument of each stream is the locale of the instance making the call. -/
structure FakerGen where
  companyF : Nat → String
  cityF : String → Nat → String
  addressF : String → Nat → String
  phoneF : String → Nat → String
  pos : Nat

/-- Advance the Faker generator by `k` calls. -/
def FakerGen.bump (fk : FakerGen) (k : Nat) : FakerGen :=
  { fk with pos := fk.pos + k }

/-- `fake.unique.company()` on the default (en_US) instance. -/
def FakerGen.drawCompany (fk : FakerGen) : String × FakerGen :=
  (fk.companyF fk.pos, fk.bump 1)

/-- `fake_locale.city()`. -/
def FakerGen.drawCity (fk : FakerGen) (locale : String) : String × FakerGen :=
  (fk.cityF locale fk.pos, fk.bump 1)

/-- `fake_locale.address()`. -/
def FakerGen.drawAddress (fk : FakerGen) (locale : String) : String × FakerGen :=
  (fk.addressF locale fk.pos, fk.bump 1)

/-- `fake_locale.phone_number()`. -/
def FakerGen.drawPhone (fk : FakerGen) (locale : String) : String × FakerGen :=
  (fk.phoneF locale fk.pos, fk.bump 1)

/-- The `locations` table. -/
def locations : List String := [
  "Beachfront", "Mountain View", "Downtown", "Desert", "Oceanfront", "Historic District",
  "Lakeside", "Countryside", "City Center", "Riverside", "Business District", "Wine Country",
  "Government District", "Tech Hub", "Plains", "Valley", "Forest", "Industrial District",
  "Gulf Coast", "Bay Area", "Ranch Land", "Wilderness", "Tropical Beach", "Financial District",
  "Coastal", "Suburban", "University District", "Ski Resort", "Riverfront", "Island"]

/-- The `location_amenities` dict, as an insertion-ordered association list. -/
def location_amenities : List (String × List String) := [
  ("Beachfront", ["private beach access", "ocean views", "beachside dining", "water sports equipment", "sunset terraces"]),
  ("Mountain View", ["hiking trails", "mountain vistas", "fireplaces", "ski access", "nature walks"]),
  ("Downtown", ["city skyline views", "rooftop bar", "business center", "metro access", "shopping nearby"]),
  ("Desert", ["desert landscapes", "stargazing decks", "spa services", "golf course", "pool oasis"]),
  ("Oceanfront", ["panoramic ocean views", "private balconies", "seafood restaurant", "marina access", "lighthouse views"]),
  ("Historic District", ["heritage architecture", "antique furnishings", "guided tours", "period details", "cobblestone streets"]),
  ("Lakeside", ["lake views", "fishing pier", "boat rentals", "lakefront dining", "swimming area"]),
  ("Countryside", ["rolling hills", "farm-to-table dining", "horseback riding", "wine tasting", "pastoral views"]),
  ("City Center", ["urban sophistication", "fine dining", "theater district", "shopping centers", "nightlife"]),
  ("Riverside", ["river views", "kayak rentals", "riverside trails", "fishing spots", "peaceful setting"]),
  ("Business District", ["conference facilities", "executive services", "high-speed internet", "corporate rates", "meeting rooms"]),
  ("Wine Country", ["vineyard views", "wine tastings", "cellar tours", "gourmet dining", "harvest experiences"]),
  ("Government District", ["historic landmarks", "monument views", "political tours", "security features", "diplomatic services"]),
  ("Tech Hub", ["high-tech amenities", "fast WiFi", "co-working spaces", "innovation center", "startup networking"]),
  ("Plains", ["wide open spaces", "prairie views", "outdoor activities", "peaceful atmosphere", "starry nights"]),
  ("Valley", ["valley panoramas", "scenic drives", "hiking paths", "fresh air", "mountain backdrops"]),
  ("Forest", ["forest trails", "wildlife viewing", "cabin atmosphere", "outdoor adventures", "nature immersion"]),
  ("Industrial District", ["modern design", "converted warehouses", "urban loft style", "art galleries", "trendy restaurants"]),
  ("Gulf Coast", ["gulf waters", "seafood cuisine", "coastal charm", "fishing charters", "beach activities"]),
  ("Bay Area", ["bay views", "maritime culture", "sailing opportunities", "waterfront dining", "harbor tours"]),
  ("Ranch Land", ["ranch experiences", "horseback riding", "cattle drives", "cowboy culture", "wide open spaces"]),
  ("Wilderness", ["untouched nature", "wildlife encounters", "adventure activities", "eco-tours", "camping options"]),
  ("Tropical Beach", ["white sand beaches", "palm trees", "tropical drinks", "snorkeling", "paradise setting"]),
  ("Financial District", ["luxury accommodations", "business services", "upscale dining", "premium location", "executive floors"]),
  ("Coastal", ["coastal breezes", "seaside charm", "lighthouse tours", "beach walks", "maritime history"]),
  ("Suburban", ["family-friendly", "quiet neighborhoods", "local attractions", "easy access", "comfortable setting"]),
  ("University District", ["academic atmosphere", "student discounts", "cultural events", "library access", "campus tours"]),
  ("Ski Resort", ["ski slopes", "winter sports", "alpine dining", "mountain lodges", "snow activities"]),
  ("Riverfront", ["riverfront location", "water activities", "scenic beauty", "peaceful setting", "nature walks"]),
  ("Island", ["island paradise", "tropical setting", "water activities", "secluded beaches", "resort atmosphere"])]

/-- The `property_type_features` dict, as an insertion-ordered association list. -/
def property_type_features : List (String × List String) := [
  ("Resort", ["luxury amenities", "spa services", "multiple restaurants", "recreational facilities", "concierge service"]),
  ("Hotel", ["comfortable rooms", "room service", "front desk", "housekeeping", "guest services"]),
  ("Lodge", ["rustic charm", "cozy atmosphere", "outdoor activities", "lodge dining", "nature setting"]),
  ("Inn", ["intimate setting", "personalized service", "local charm", "historic character", "boutique experience"]),
  ("Suites", ["spacious accommodations", "separate living areas", "kitchen facilities", "extended stay options", "business amenities"]),
  ("Manor", ["elegant architecture", "luxurious interiors", "historic grandeur", "fine dining", "exclusive atmosphere"]),
  ("Retreat", ["peaceful environment", "wellness programs", "meditation spaces", "healthy cuisine", "rejuvenation focus"]),
  ("Cabin", ["rustic accommodations", "nature immersion", "outdoor adventures", "cozy interiors", "campfire areas"])]

/-- `property_type_features.keys()` in insertion order. -/
def propertyTypeKeys : List String := property_type_features.map Prod.fst

/-- The `us_states` table. -/
def us_states : List String := [
  "Alabama", "Alaska", "Arizona", "Arkansas", "California", "Colorado", "Connecticut",
  "Delaware", "Florida", "Georgia", "Hawaii", "Idaho", "Illinois", "Indiana", "Iowa",
  "Kansas", "Kentucky", "Louisiana", "Maine", "Maryland", "Massachusetts", "Michigan",
  "Minnesota", "Mississippi", "Missouri", "Montana", "Nebraska", "Nevada", "New Hampshire",
  "New Jersey", "New Mexico", "New York", "North Carolina", "North Dakota", "Ohio",
  "Oklahoma", "Oregon", "Pennsylvania", "Rhode Island", "South Carolina", "South Dakota",
  "Tennessee", "Texas", "Utah", "Vermont", "Virginia", "Washington", "West Virginia",
  "Wisconsin", "Wyoming"]

/-- The `canadian_provinces` table. -/
def canadian_provinces : List String := [
  "Alberta", "British Columbia", "Manitoba", "New Brunswick", "Newfoundland and Labrador",
  "Northwest Territories", "Nova Scotia", "Nunavut", "Ontario", "Prince Edward Island",
  "Quebec", "Saskatchewan", "Yukon"]

/-- The `mexican_states` table. -/
def mexican_states : List String := [
  "Aguascalientes", "Baja California", "Baja California Sur", "Campeche", "Chiapas",
  "Chihuahua", "Coahuila", "Colima", "Durango", "Guanajuato", "Guerrero", "Hidalgo",
  "Jalisco", "México", "Michoacán", "Morelos", "Nayarit", "Nuevo León", "Oaxaca",
  "Puebla", "Querétaro", "Quintana Roo", "San Luis Potosí", "Sinaloa", "Sonora",
  "Tabasco", "Tamaulipas", "Tlaxcala", "Veracruz", "Yucatán", "Zacatecas"]

/-- The `countries_states` dict, as an insertion-ordered association list. -/
def countries_states : List (String × List String) :=
  [("USA", us_states), ("Canada", canadian_provinces), ("Mexico", mexican_states)]

/-- `countries = list(countries_states.keys())`. -/
def countries : List String := countries_states.map Prod.fst

/-- The `cancellation_policies` table. -/
def cancellation_policies : List String := [
  "Full refund if cancelled 48 hours prior",
  "50% if cancelled within 48 hours",
  "No penalty if cancelled 72 hours prior",
  "20% penalty if cancelled within 48 hours",
  "25% penalty if cancelled within 24 hours",
  "30% penalty if cancelled within 72 hours",
  "40% penalty if cancelled within 24 hours",
  "10% penalty if cancelled within 24 hours",
  "15% penalty if cancelled within 24 hours"]


/-- `unique_property_names`'s name sampling:
`f"{fake.unique.company()} {random.choice(['Resort','Hotel','Lodge','Inn','Suites','Manor','Retreat','Cabin'])}"`. -/
def name_suffixes : List String :=
  ["Resort", "Hotel", "Lodge", "Inn", "Suites", "Manor", "Retreat", "Cabin"]

/-- One candidate name: company draw, then suffix choice. -/
def sampleName (g : PyRand) (fk : FakerGen) : String × PyRand × FakerGen :=
  let d := fk.drawCompany
  let c := choice name_suffixes g
  (d.1 ++ " " ++ c.1, c.2, d.2)

/-- The `while len(names) < n` loop of `unique_property_names`, with fuel.
`acc` is the set of collected names in insertion order (Python set membership
is by string value). -/
def uniqueNamesLoop (n : Nat) : Nat → List String → PyRand → FakerGen →
    Option (List String × PyRand × FakerGen)
  | 0, acc, g, fk => if n ≤ acc.length then some (acc, g, fk) else none
  | fuel + 1, acc, g, fk =>
    if n ≤ acc.length then some (acc, g, fk)
    else
      let t := sampleName g fk
      uniqueNamesLoop n fuel (if t.1 ∈ acc then acc else acc ++ [t.1]) t.2.1 t.2.2

/-- `unique_property_names(n)`: collect `n` distinct names, then `list(names)`.
`setOrder` is the set-iteration order applied by `list(...)`, a function of
CPython's per-process string hash salt. -/
def unique_property_names (n fuel : Nat) (setOrder : List String → List String)
    (g : PyRand) (fk : FakerGen) : Option (List String × PyRand × FakerGen) :=
  match uniqueNamesLoop n fuel [] g fk with
  | none => none
  | some (acc, g', fk') => some (setOrder acc, g', fk')

/-- The slug of `unique_emails`:
`name.lower().replace(" ", "").replace("&", "and").replace("-", "").replace(",", "")`. -/
def slugify (name : String) : String :=
  strReplaceChar (strReplaceChar (strReplaceChar (strReplaceChar
    (strLower name) ' ' "") '&' "and") '-' "") ',' ""

/-- One derived email: `f"info@{slug}.com"`. -/
def deriveEmail (name : String) : String :=
  "info@" ++ slugify name ++ ".com"

/-- `unique_emails(names)`. -/
def unique_emails (names : List String) : List String :=
  names.map deriveEmail

/-- `get_country_specific_data(country)`: the locale tag of the Faker instance
created for the country, and `countries_states[country]`. -/
def get_country_specific_data (country : String) : String × List String :=
  (if country = "USA" then "en_US"
   else if country = "Canada" then "en_CA"
   else if country = "Mexico" then "es_MX"
   else "en_US",
   (countries_states.lookup country).getD [])

/-- `location_amenities.get(location, [...])`. -/
def amenitiesFor (location : String) : List String :=
  (location_amenities.lookup location).getD
    ["scenic views", "comfortable accommodations", "friendly service"]

/-- `property_type_features.get(property_type, [...])`. -/
def featuresFor (ptype : String) : List String :=
  (property_type_features.lookup ptype).getD
    ["quality accommodations", "excellent service"]

/-- Extract the property type from the name: the first key of
`property_type_features` occurring as a substring, else `"Hotel"`. -/
def inferType (property_name : String) : String :=
  (propertyTypeKeys.find? (fun t => strContains property_name t)).getD "Hotel"

/-- The `opening_lines` templates. -/
def openingLines (property_name location : String) : List String := [
  "Discover the perfect blend of comfort and luxury at " ++ property_name ++ ".",
  "Experience exceptional hospitality at " ++ property_name ++ ".",
  "Welcome to " ++ property_name ++ ", where comfort meets elegance.",
  "Nestled in a prime " ++ strLower location ++ " location, " ++ property_name ++
    " offers an unforgettable experience.",
  property_name ++ " provides the ideal escape for discerning travelers."]

/-- The `location_descriptions` dict. -/
def location_descriptions : List (String × String) := [
  ("Beachfront", "steps away from pristine sandy beaches"),
  ("Mountain View", "surrounded by majestic mountain peaks"),
  ("Downtown", "in the heart of the bustling city center"),
  ("Desert", "amidst stunning desert landscapes"),
  ("Oceanfront", "with breathtaking ocean vistas"),
  ("Historic District", "steeped in rich cultural heritage"),
  ("Lakeside", "overlooking tranquil lake waters"),
  ("Countryside", "set in picturesque rural surroundings"),
  ("City Center", "at the pulse of urban excitement"),
  ("Riverside", "along the peaceful riverbank"),
  ("Wine Country", "surrounded by rolling vineyards"),
  ("Ski Resort", "at the base of world-class ski slopes"),
  ("Island", "on a secluded tropical island")]

/-- `location_descriptions.get(location, f"in a beautiful {location.lower()} setting")`. -/
def locationDescFor (location : String) : String :=
  (location_descriptions.lookup location).getD
    ("in a beautiful " ++ strLower location ++ " setting")

/-- The `country_closings` dict. -/
def country_closings : List (String × String) := [
  ("USA", "making it the perfect choice for your American adventure."),
  ("Canada", "providing an authentic Canadian hospitality experience."),
  ("Mexico", "offering you a taste of Mexico's warm hospitality and vibrant culture.")]

/-- `country_closings.get(country, "ensuring a memorable stay for every guest.")`. -/
def closingFor (country : String) : String :=
  (country_closings.lookup country).getD "ensuring a memorable stay for every guest."

/-- The `feature_text` construction from `all_features`. -/
def featureText (fs : List String) : String :=
  if 3 ≤ fs.length then
    "Enjoy " ++ fs.getD 0 "" ++ ", " ++ fs.getD 1 "" ++ ", and " ++ fs.getD 2 "" ++
      (if 3 < fs.length then ", along with " ++ String.intercalate ", " (fs.drop 3) else "")
  else
    "Experience " ++ String.intercalate " and " fs

/-- `generate_property_description(property_name, location, country)`. -/
def generate_property_description (property_name location country : String)
    (g0 : PyRand) : String × PyRand :=
  let property_type := inferType property_name
  let amenities := amenitiesFor location
  let type_features := featuresFor property_type
  let c1 := choice (openingLines property_name location) g0
  let opening := c1.1
  let g1 := c1.2
  let location_desc := locationDescFor location
  let s1 := sample amenities (min 4 amenities.length) g1
  let selected_amenities := s1.1
  let g2 := s1.2
  let s2 := sample type_features (min 3 type_features.length) g2
  let selected_features := s2.1
  let g3 := s2.2
  let sh := shuffle (selected_amenities ++ selected_features) g3
  let all_features := sh.1
  let g4 := sh.2
  (opening ++ " Located " ++ location_desc ++
    ", our property combines modern comfort with local charm. " ++
    featureText all_features ++ ", " ++ closingFor country, g4)

/-- One generated property record (the dict appended to `properties`). -/
structure PropertyRecord where
  id : Nat
  propertyName : String
  propertyDescription : String
  propertyLocation : String
  propertyCity : String
  propertyState : String
  propertyCountry : String
  propertyAddress : String
  propertyPhoneNumber : String
  propertyEmailAddress : String
  propertyAirportProximity : String
  propertyPricePerNight : ℚ
  propertyCommissionAmount : ℚ
  propertyCancellationPenalty : String

instance : Inhabited PropertyRecord :=
  ⟨⟨0, "", "", "", "", "", "", "", "", "", "", 0, 0, ""⟩⟩

/-- One iteration of the `for i in range(1000)` generation loop. -/
def genRecord (names emails : List String) (i : Nat) (g0 : PyRand) (fk0 : FakerGen) :
    PropertyRecord × PyRand × FakerGen :=
  let c1 := choice countries g0
  let country := c1.1
  let g1 := c1.2
  let gd := get_country_specific_data country
  let locale := gd.1
  let states := gd.2
  let c2 := choice states g1
  let state := c2.1
  let g2 := c2.2
  let d1 := fk0.drawCity locale
  let city := d1.1
  let fk1 := d1.2
  let d2 := fk1.drawAddress locale
  let address := strReplaceChar d2.1 '\n' ", "
  let fk2 := d2.2
  let d3 := fk2.drawPhone locale
  let phone := d3.1
  let fk3 := d3.2
  let c3 := choice locations g2
  let location := c3.1
  let g3 := c3.2
  let r1 := randint 2 30 g3
  let dist := r1.1
  let g4 := r1.2
  let d4 := fk3.drawCity locale
  let acity := d4.1
  let fk4 := d4.2
  let airport := toString dist ++ " miles from " ++ acity ++ " International Airport"
  let u1 := uniform 75 750 g4
  let price := pyRound2 u1.1
  let g5 := u1.2
  let u2 := uniform (1/10) (1/5) g5
  let commission := pyRound2 (price * u2.1)
  let g6 := u2.2
  let c4 := choice cancellation_policies g6
  let cancellation := c4.1
  let g7 := c4.2
  let pd := generate_property_description (names.getD i "") location country g7
  let description := pd.1
  let g8 := pd.2
  (⟨i + 1, names.getD i "", description, location, city, state, country, address,
    phone, emails.getD i "", airport, price, commission, cancellation⟩, g8, fk4)

/-- The whole `for i in range(...)` loop, generating `k` records starting at
index `i`. -/
def generateProperties (names emails : List String) :
    Nat → Nat → PyRand → FakerGen → List PropertyRecord × PyRand × FakerGen
  | 0, _, g, fk => ([], g, fk)
  | k + 1, i, g, fk =>
    let t := genRecord names emails i g fk
    let rest := generateProperties names emails k (i + 1) t.2.1 t.2.2
    (t.1 :: rest.1, rest.2)

/-- The script's record corpus: names, emails, then the generation loop.
`n` is the literal 1000 of the script; `fuel` bounds the name-search loop. -/
def runCorpus (n fuel : Nat) (setOrder : List String → List String)
    (g : PyRand) (fk : FakerGen) : Option (List PropertyRecord) :=
  match unique_property_names n fuel setOrder g fk with
  | none => none
  | some (names, g', fk') =>
    some (generateProperties names (unique_emails names) n 0 g' fk').1

/-- JSON documents, as built by `json.dump`. -/
inductive Json where
  | str : String → Json
  | int : Int → Json
  | num : ℚ → Json
  | arr : List Json → Json
  | obj : List (String × Json) → Json

/-- The record dict in its serialization order. -/
def recordToJson (r : PropertyRecord) : Json :=
  Json.obj [
    ("id", Json.int r.id),
    ("propertyName", Json.str r.propertyName),
    ("propertyDescription", Json.str r.propertyDescription),
    ("propertyLocation", Json.str r.propertyLocation),
    ("propertyCity", Json.str r.propertyCity),
    ("propertyState", Json.str r.propertyState),
    ("propertyCountry", Json.str r.propertyCountry),
    ("propertyAddress", Json.str r.propertyAddress),
    ("propertyPhoneNumber", Json.str r.propertyPhoneNumber),
    ("propertyEmailAddress", Json.str r.propertyEmailAddress),
    ("propertyAirportProximity", Json.str r.propertyAirportProximity),
    ("propertyPricePerNight", Json.num r.propertyPricePerNight),
    ("propertyCommissionAmount", Json.num r.propertyCommissionAmount),
    ("propertyCancellationPenalty", Json.str r.propertyCancellationPenalty)]

/-- The document written to `propertyFiles.json`:
`{"properties": properties}`. -/
def runScript (n fuel : Nat) (setOrder : List String → List String)
    (g : PyRand) (fk : FakerGen) : Option Json :=
  (runCorpus n fuel setOrder g fk).map
    (fun l => Json.obj [("properties", Json.arr (l.map recordToJson))])

/-- A proposition holding of the value of a successful run. -/
def OptionHolds (P : α → Prop) : Option α → Prop
  | none => True
  | some x => P x

/-- Record `i` of a (possibly failed) corpus. -/
def recAt (o : Option (List PropertyRecord)) (i : Nat) : PropertyRecord :=
  (o.getD []).getD i default

/-- Type-shape check of one serialized record: exactly the 14 fields, in
order, with an integer id, numeric price and commission, strings elsewhere. -/
def recordJsonOk : Json → Bool
  | Json.obj [("id", Json.int _), ("propertyName", Json.str _),
      ("propertyDescription", Json.str _), ("propertyLocation", Json.str _),
      ("propertyCity", Json.str _), ("propertyState", Json.str _),
      ("propertyCountry", Json.str _), ("propertyAddress", Json.str _),
      ("propertyPhoneNumber", Json.str _), ("propertyEmailAddress", Json.str _),
      ("propertyAirportProximity", Json.str _), ("propertyPricePerNight", Json.num _),
      ("propertyCommissionAmount", Json.num _), ("propertyCancellationPenalty", Json.str _)] =>
    true
  | _ => false

/-- Shape check of the whole document: a single top-level key `"properties"`
holding an array of exactly 1000 well-shaped records. -/
def outputOk : Json → Bool
  | Json.obj [("properties", Json.arr recs)] =>
    recs.length == 1000 && recs.all recordJsonOk
  | _ => false

/-- The name sampled at step `i` of the search loop, as a function of the
initial generator states. -/
def nameAt (g : PyRand) (fk : FakerGen) (i : Nat) : String :=
  fk.companyF (fk.pos + i) ++ " " ++
    name_suffixes.getD (g.ints (g.pos + i) % name_suffixes.length) ""

/-- A company-name stream whose values are pairwise distinct (distinct
lengths), used to exhibit runs on which the name search succeeds. -/
def companyRep : Nat → String := fun i => String.mk (List.replicate i 'a')

/-- A company-name stream with two distinct companies whose slugs coincide
(`"Ab-a"` and `"Aba"`), pairwise distinct overall. -/
def companyC2 : Nat → String
  | 0 => "Ab-a"
  | 1 => "Aba"
  | k + 2 => String.mk (List.replicate (k + 5) 'a')

/-- A `random` oracle: every integer draw is 1, every unit draw is 0. -/
def gOnes : PyRand := ⟨fun _ => 1, fun _ => 0, 0⟩

/-- A unit-draw stream hitting the rounding edge of the commission
computation at the draws of the first generated record (positions 1004 and
1005, after the 1000 draws of the name search). -/
def unitsC3 : Nat → ℚ :=
  fun p => if p = 1004 then 3/67500 else if p = 1005 then 1/10000 else 0

/-- A `random` oracle whose unit draws make record 0 hit the rounding edge. -/
def gC3 : PyRand := ⟨fun _ => 1, unitsC3, 0⟩

/-- A Faker oracle built on `companyRep`. -/
def fkRep : FakerGen := ⟨companyRep, fun _ _ => "", fun _ _ => "", fun _ _ => "", 0⟩

/-- A Faker oracle built on `companyC2`. -/
def fkC2 : FakerGen := ⟨companyC2, fun _ _ => "", fun _ _ => "", fun _ _ => "", 0⟩

theorem pyRand_bump_zero (g : PyRand) : g.bump 0 = g := by
  cases g; simp [PyRand.bump]

theorem fakerGen_bump_zero (fk : FakerGen) : fk.bump 0 = fk := by
  cases fk; simp [FakerGen.bump]

theorem getD_mod_mem (xs : List String) (h : xs ≠ []) (v : Nat) :
    xs.getD (v % xs.length) "" ∈ xs := by
  have hlen : 0 < xs.length := List.length_pos.mpr h
  have hm : v % xs.length < xs.length := Nat.mod_lt _ hlen
  rw [xs.getD_eq_getElem "" hm]
  exact List.getElem_mem hm

theorem choice_mem (xs : List String) (h : xs ≠ []) (g : PyRand) :
    (choice xs g).1 ∈ xs :=
  getD_mod_mem xs h _

theorem getD_map_range (f : Nat → String) (n j : Nat) (hj : j < n) :
    ((List.range n).map f).getD j "" = f j := by
  have hl : j < ((List.range n).map f).length := by simpa using hj
  rw [List.getD_eq_getElem _ _ hl]
  simp [List.getElem_range]

theorem getD_map_lt (f : String → String) (l : List String) (j : Nat) (hj : j < l.length) :
    (l.map f).getD j "" = f (l.getD j "") := by
  have hl : j < (l.map f).length := by simpa using hj
  rw [List.getD_eq_getElem _ _ hl, List.getElem_map, List.getD_eq_getElem _ _ hj]

theorem map_getD_range (l : List String) :
    (List.range l.length).map (fun j => l.getD j "") = l := by
  induction l with
  | nil => rfl
  | cons a t ih =>
    have hcomp : ((fun j => (a :: t).getD j "") ∘ Nat.succ) = fun j => t.getD j "" := by
      funext j; simp [List.getD_cons_succ]
    rw [List.length_cons, List.range_succ_eq_map, List.map_cons, List.map_map, hcomp, ih]
    rfl

theorem getD_not_mem_eraseIdx (xs : List String) (j : Nat) (hj : j < xs.length)
    (hnd : xs.Nodup) : xs.getD j "" ∉ xs.eraseIdx j := by
  induction xs generalizing j with
  | nil => simp at hj
  | cons a t ih =>
    cases j with
    | zero =>
      simpa using (List.nodup_cons.mp hnd).1
    | succ j =>
      have hj' : j < t.length := by simpa using hj
      have hnd' := List.nodup_cons.mp hnd
      have hmem : t.getD j "" ∈ t := by
        rw [t.getD_eq_getElem "" hj']; exact List.getElem_mem hj'
      simp only [List.eraseIdx_cons_succ, List.getD_cons_succ, List.mem_cons]
      push_neg
      exact ⟨fun he => hnd'.1 (he ▸ hmem), ih j hj' hnd'.2⟩

theorem getD_cons_eraseIdx_perm (xs : List String) (j : Nat) (hj : j < xs.length) :
    List.Perm (xs.getD j "" :: xs.eraseIdx j) xs := by
  induction xs generalizing j with
  | nil => simp at hj
  | cons a t ih =>
    cases j with
    | zero => simp
    | succ j =>
      have hj' : j < t.length := by simpa using hj
      simp only [List.eraseIdx_cons_succ, List.getD_cons_succ]
      exact (List.Perm.swap a (t.getD j "") _).trans ((ih j hj').cons a)

theorem sample_streams (k : Nat) : ∀ (xs : List String) (g : PyRand),
    (sample xs k g).2.units = g.units ∧ (sample xs k g).2.ints = g.ints := by
  induction k with
  | zero => intro xs g; exact ⟨rfl, rfl⟩
  | succ k ih =>
    intro xs g
    simp only [sample]
    exact ih _ _

theorem sample_spec (k : Nat) : ∀ (xs : List String) (g : PyRand), k ≤ xs.length →
    (sample xs k g).1.length = k ∧ (sample xs k g).1 ⊆ xs ∧
      (xs.Nodup → (sample xs k g).1.Nodup) := by
  induction k with
  | zero => intro xs g _; simp [sample]
  | succ k ih =>
    intro xs g h
    have hpos : 0 < xs.length := lt_of_lt_of_le (Nat.succ_pos k) h
    have hjlt : g.ints g.pos % xs.length < xs.length := Nat.mod_lt _ hpos
    have herase : (xs.eraseIdx (g.ints g.pos % xs.length)).length = xs.length - 1 :=
      List.length_eraseIdx_of_lt hjlt
    have hk : k ≤ (xs.eraseIdx (g.ints g.pos % xs.length)).length := by omega
    obtain ⟨hl, hs, hn⟩ := ih (xs.eraseIdx (g.ints g.pos % xs.length)) (g.bump 1) hk
    have hsub : xs.eraseIdx (g.ints g.pos % xs.length) ⊆ xs :=
      (List.eraseIdx_sublist xs _).subset
    have hx : xs.getD (g.ints g.pos % xs.length) "" ∈ xs := by
      rw [xs.getD_eq_getElem "" hjlt]; exact List.getElem_mem hjlt
    refine ⟨?_, ?_, ?_⟩
    · simp only [sample, PyRand.nextInt, List.length_cons]
      rw [hl]
    · simp only [sample, PyRand.nextInt, List.cons_subset]
      exact ⟨hx, hs.trans hsub⟩
    · intro hnd
      simp only [sample, PyRand.nextInt, List.nodup_cons]
      refine ⟨fun hc => ?_, hn ((List.eraseIdx_sublist xs _).nodup hnd)⟩
      exact getD_not_mem_eraseIdx xs _ hjlt hnd (hs hc)

theorem sample_perm (k : Nat) : ∀ (xs : List String) (g : PyRand), xs.length = k →
    List.Perm (sample xs k g).1 xs := by
  induction k with
  | zero =>
    intro xs g h
    rw [List.length_eq_zero.mp h]
    simp [sample]
  | succ k ih =>
    intro xs g h
    have hpos : 0 < xs.length := by omega
    have hjlt : g.ints g.pos % xs.length < xs.length := Nat.mod_lt _ hpos
    have herase : (xs.eraseIdx (g.ints g.pos % xs.length)).length = k := by
      rw [List.length_eraseIdx_of_lt hjlt]; omega
    have hrest := ih (xs.eraseIdx (g.ints g.pos % xs.length)) (g.bump 1) herase
    simp only [sample, PyRand.nextInt]
    exact (hrest.cons _).trans (getD_cons_eraseIdx_perm xs _ hjlt)

theorem shuffle_perm (xs : List String) (g : PyRand) :
    List.Perm (shuffle xs g).1 xs :=
  sample_perm xs.length xs g rfl

theorem uniqueNamesLoop_some (n : Nat) (fuel : Nat) :
    ∀ (acc : List String) (g : PyRand) (fk : FakerGen) (l : List String)
      (g' : PyRand) (fk' : FakerGen),
    uniqueNamesLoop n fuel acc g fk = some (l, g', fk') → acc.Nodup → acc.length ≤ n →
    l.Nodup ∧ l.length = n ∧ g'.units = g.units ∧ g'.ints = g.ints := by
  induction fuel with
  | zero =>
    intro acc g fk l g' fk' h hnd hle
    simp only [uniqueNamesLoop] at h
    split at h
    · rename_i hn
      simp only [Option.some.injEq, Prod.mk.injEq] at h
      obtain ⟨rfl, rfl, rfl⟩ := h
      exact ⟨hnd, le_antisymm hle hn, rfl, rfl⟩
    · cases h
  | succ fuel ih =>
    intro acc g fk l g' fk' h hnd hle
    simp only [uniqueNamesLoop] at h
    split at h
    · rename_i hn
      simp only [Option.some.injEq, Prod.mk.injEq] at h
      obtain ⟨rfl, rfl, rfl⟩ := h
      exact ⟨hnd, le_antisymm hle hn, rfl, rfl⟩
    · rename_i hn
      push_neg at hn
      by_cases hmem : (sampleName g fk).1 ∈ acc
      · rw [if_pos hmem] at h
        obtain ⟨h1, h2, h3, h4⟩ := ih _ _ _ _ _ _ h hnd hle
        exact ⟨h1, h2, h3, h4⟩
      · rw [if_neg hmem] at h
        have hnd' : (acc ++ [(sampleName g fk).1]).Nodup := by
          simp [List.nodup_append, hnd, hmem]
        have hle' : (acc ++ [(sampleName g fk).1]).length ≤ n := by
          simp only [List.length_append, List.length_singleton]
          omega
        obtain ⟨h1, h2, h3, h4⟩ := ih _ _ _ _ _ _ h hnd' hle'
        exact ⟨h1, h2, h3, h4⟩

theorem sampleName_bump (g : PyRand) (fk : FakerGen) (c : Nat) :
    sampleName (g.bump c) (fk.bump c) = (nameAt g fk c, g.bump (c + 1), fk.bump (c + 1)) := by
  simp [sampleName, nameAt, FakerGen.drawCompany, choice, PyRand.nextInt, PyRand.bump,
    FakerGen.bump, Nat.add_assoc]

theorem uniqueNamesLoop_range (n : Nat) (g : PyRand) (fk : FakerGen)
    (hinj : ∀ i j, i < n → j < n → nameAt g fk i = nameAt g fk j → i = j) :
    ∀ (fuel c : Nat), c ≤ n → n ≤ c + fuel →
    uniqueNamesLoop n fuel ((List.range c).map (nameAt g fk)) (g.bump c) (fk.bump c) =
      some ((List.range n).map (nameAt g fk), g.bump n, fk.bump n) := by
  intro fuel
  induction fuel with
  | zero =>
    intro c hc hn
    have hcn : c = n := by omega
    subst hcn
    simp [uniqueNamesLoop]
  | succ fuel ih =>
    intro c hc hn
    by_cases hcn : c = n
    · subst hcn
      simp [uniqueNamesLoop]
    · have hlt : c < n := lt_of_le_of_ne hc hcn
      have hnotmem : nameAt g fk c ∉ (List.range c).map (nameAt g fk) := by
        intro hmem
        obtain ⟨j, hj, hje⟩ := List.mem_map.mp hmem
        have hjc : j < c := List.mem_range.mp hj
        have : j = c := hinj j c (by omega) hlt hje
        omega
      have hstep : (List.range c).map (nameAt g fk) ++ [nameAt g fk c] =
          (List.range (c + 1)).map (nameAt g fk) := by
        rw [List.range_succ, List.map_append]
        rfl
      simp only [uniqueNamesLoop, List.length_map, List.length_range]
      rw [if_neg (by omega : ¬ n ≤ c), sampleName_bump]
      simp only []
      rw [if_neg hnotmem, hstep]
      exact ih (c + 1) (by omega) (by omega)

theorem uniqueNamesLoop_success (n : Nat) (g : PyRand) (fk : FakerGen)
    (hinj : ∀ i j, i < n → j < n → nameAt g fk i = nameAt g fk j → i = j) :
    uniqueNamesLoop n n [] g fk =
      some ((List.range n).map (nameAt g fk), g.bump n, fk.bump n) := by
  have h := uniqueNamesLoop_range n g fk hinj n 0 (Nat.zero_le n) (by omega)
  simpa [pyRand_bump_zero, fakerGen_bump_zero] using h

theorem unique_property_names_some (n fuel : Nat) (order : List String → List String)
    (g : PyRand) (fk : FakerGen) (names : List String) (g' : PyRand) (fk' : FakerGen)
    (hord : ∀ l, List.Perm (order l) l)
    (h : unique_property_names n fuel order g fk = some (names, g', fk')) :
    names.Nodup ∧ names.length = n ∧ g'.units = g.units := by
  unfold unique_property_names at h
  cases hL : uniqueNamesLoop n fuel [] g fk with
  | none => rw [hL] at h; cases h
  | some res =>
    obtain ⟨acc, g2, fk2⟩ := res
    rw [hL] at h
    simp only [Option.some.injEq, Prod.mk.injEq] at h
    obtain ⟨rfl, rfl, rfl⟩ := h
    obtain ⟨h1, h2, h3, _⟩ :=
      uniqueNamesLoop_some n fuel [] g fk acc g2 fk2 hL List.nodup_nil (by simp)
    exact ⟨((hord acc).nodup_iff).mpr h1, by rw [(hord acc).length_eq, h2], h3⟩

theorem genRecord_id (names emails : List String) (i : Nat) (g : PyRand) (fk : FakerGen) :
    (genRecord names emails i g fk).1.id = i + 1 := rfl

theorem genRecord_name (names emails : List String) (i : Nat) (g : PyRand) (fk : FakerGen) :
    (genRecord names emails i g fk).1.propertyName = names.getD i "" := rfl

theorem genRecord_email (names emails : List String) (i : Nat) (g : PyRand) (fk : FakerGen) :
    (genRecord names emails i g fk).1.propertyEmailAddress = emails.getD i "" := rfl

theorem genRecord_country (names emails : List String) (i : Nat) (g : PyRand) (fk : FakerGen) :
    (genRecord names emails i g fk).1.propertyCountry = (choice countries g).1 := rfl

theorem genRecord_state (names emails : List String) (i : Nat) (g : PyRand) (fk : FakerGen) :
    (genRecord names emails i g fk).1.propertyState =
      (get_country_specific_data (choice countries g).1).2.getD
        (g.ints (g.pos + 1) % (get_country_specific_data (choice countries g).1).2.length)
        "" := rfl

theorem genRecord_location (names emails : List String) (i : Nat) (g : PyRand) (fk : FakerGen) :
    (genRecord names emails i g fk).1.propertyLocation =
      locations.getD (g.ints (g.pos + 2) % locations.length) "" := rfl

theorem genRecord_city (names emails : List String) (i : Nat) (g : PyRand) (fk : FakerGen) :
    (genRecord names emails i g fk).1.propertyCity =
      fk.cityF (get_country_specific_data (choice countries g).1).1 fk.pos := rfl

theorem genRecord_airport (names emails : List String) (i : Nat) (g : PyRand) (fk : FakerGen) :
    (genRecord names emails i g fk).1.propertyAirportProximity =
      toString (2 + g.ints (g.pos + 3) % (30 - 2 + 1)) ++ " miles from " ++
        fk.cityF (get_country_specific_data (choice countries g).1).1 (fk.pos + 3) ++
        " International Airport" := rfl

theorem genRecord_price (names emails : List String) (i : Nat) (g : PyRand) (fk : FakerGen) :
    (genRecord names emails i g fk).1.propertyPricePerNight =
      pyRound2 (75 + (750 - 75) * g.units (g.pos + 4)) := rfl

theorem genRecord_commission (names emails : List String) (i : Nat) (g : PyRand) (fk : FakerGen) :
    (genRecord names emails i g fk).1.propertyCommissionAmount =
      pyRound2 (pyRound2 (75 + (750 - 75) * g.units (g.pos + 4)) *
        (1/10 + (1/5 - 1/10) * g.units (g.pos + 5))) := rfl

theorem genRecord_descr (names emails : List String) (i : Nat) (g : PyRand) (fk : FakerGen) :
    (genRecord names emails i g fk).1.propertyDescription =
      (generate_property_description (names.getD i "")
        (locations.getD (g.ints (g.pos + 2) % locations.length) "")
        (choice countries g).1 (g.bump 7)).1 := rfl

theorem gpd_units (pn loc co : String) (g : PyRand) :
    (generate_property_description pn loc co g).2.units = g.units := by
  unfold generate_property_description shuffle
  dsimp only
  rw [(sample_streams _ _ _).1, (sample_streams _ _ _).1, (sample_streams _ _ _).1]
  rfl

theorem genRecord_units (names emails : List String) (i : Nat) (g : PyRand) (fk : FakerGen) :
    (genRecord names emails i g fk).2.1.units = g.units := by
  unfold genRecord
  dsimp only
  rw [gpd_units]
  rfl

theorem generateProperties_length (names emails : List String) :
    ∀ (k i : Nat) (g : PyRand) (fk : FakerGen),
    (generateProperties names emails k i g fk).1.length = k := by
  intro k
  induction k with
  | zero => intro i g fk; rfl
  | succ k ih =>
    intro i g fk
    simp only [generateProperties, List.length_cons]
    rw [ih]

theorem generateProperties_map_id (names emails : List String) :
    ∀ (k i : Nat) (g : PyRand) (fk : FakerGen),
    (generateProperties names emails k i g fk).1.map (fun r => r.id) =
      List.range' (i + 1) k := by
  intro k
  induction k with
  | zero => intro i g fk; rfl
  | succ k ih =>
    intro i g fk
    simp only [generateProperties, List.map_cons]
    rw [ih, genRecord_id, List.range'_succ]

theorem generateProperties_map_name (names emails : List String) :
    ∀ (k i : Nat) (g : PyRand) (fk : FakerGen),
    (generateProperties names emails k i g fk).1.map (fun r => r.propertyName) =
      (List.range' i k).map (fun j => names.getD j "") := by
  intro k
  induction k with
  | zero => intro i g fk; rfl
  | succ k ih =>
    intro i g fk
    simp only [generateProperties, List.map_cons]
    rw [ih, genRecord_name, List.range'_succ, List.map_cons]

theorem generateProperties_mem (names emails : List String) :
    ∀ (k i : Nat) (g : PyRand) (fk : FakerGen) (r : PropertyRecord),
    r ∈ (generateProperties names emails k i g fk).1 →
    ∃ (j : Nat) (g' : PyRand) (fk' : FakerGen),
      i ≤ j ∧ j < i + k ∧ g'.units = g.units ∧
      r = (genRecord names emails j g' fk').1 := by
  intro k
  induction k with
  | zero => intro i g fk r hr; cases hr
  | succ k ih =>
    intro i g fk r hr
    simp only [generateProperties, List.mem_cons] at hr
    rcases hr with hr | hr
    · exact ⟨i, g, fk, le_refl i, by omega, rfl, hr⟩
    · obtain ⟨j, g', fk', hj1, hj2, hu, he⟩ := ih (i + 1) _ _ r hr
      refine ⟨j, g', fk', by omega, by omega, ?_, he⟩
      rw [hu, genRecord_units]

theorem generateProperties_head (names emails : List String) (k i : Nat)
    (g : PyRand) (fk : FakerGen) (hk : 0 < k) :
    (generateProperties names emails k i g fk).1.getD 0 default =
      (genRecord names emails i g fk).1 := by
  cases k with
  | zero => omega
  | succ k => rfl

theorem generateProperties_getD (names emails : List String) :
    ∀ (k i : Nat) (g : PyRand) (fk : FakerGen) (j : Nat), j < k →
    ((generateProperties names emails k i g fk).1.getD j default).propertyName =
        names.getD (i + j) "" ∧
    ((generateProperties names emails k i g fk).1.getD j default).propertyEmailAddress =
        emails.getD (i + j) "" := by
  intro k
  induction k with
  | zero => intro i g fk j hj; omega
  | succ k ih =>
    intro i g fk j hj
    cases j with
    | zero =>
      constructor
      · rw [generateProperties_head names emails _ i g fk (Nat.succ_pos k), genRecord_name,
          Nat.add_zero]
      · rw [generateProperties_head names emails _ i g fk (Nat.succ_pos k), genRecord_email,
          Nat.add_zero]
    | succ j =>
      have hj' : j < k := by omega
      have := ih (i + 1) ((genRecord names emails i g fk).2.1)
        ((genRecord names emails i g fk).2.2) j hj'
      simp only [generateProperties, List.getD_cons_succ]
      rw [(by omega : i + (j + 1) = i + 1 + j)]
      exact this

theorem pyRound2_exists (q : ℚ) :
    ∃ z : ℤ, pyRound2 q = (z : ℚ) / 100 ∧ ⌊100 * q⌋ ≤ z ∧ z ≤ ⌊100 * q⌋ + 1 ∧
      |(z : ℚ) - 100 * q| ≤ 1 / 2 := by
  have h0 : (0:ℚ) ≤ 100 * q - (⌊100 * q⌋ : ℤ) := by
    have := Int.floor_le (100 * q); linarith
  have h1 : 100 * q - (⌊100 * q⌋ : ℤ) < 1 := by
    have := Int.lt_floor_add_one (100 * q); push_cast at this ⊢; linarith
  unfold pyRound2
  dsimp only
  split_ifs with hc1 hc2 hd
  · exact ⟨⌊100 * q⌋, rfl, le_refl _, by omega,
      by rw [abs_le]; constructor <;> linarith⟩
  · refine ⟨⌊100 * q⌋ + 1, rfl, by omega, le_refl _, ?_⟩
    rw [abs_le]; push_cast; constructor <;> linarith
  · have heq : 100 * q - (⌊100 * q⌋ : ℤ) = 1/2 :=
      le_antisymm (not_lt.mp hc2) (not_lt.mp hc1)
    exact ⟨⌊100 * q⌋, rfl, le_refl _, by omega,
      by rw [abs_le]; constructor <;> linarith⟩
  · have heq : 100 * q - (⌊100 * q⌋ : ℤ) = 1/2 :=
      le_antisymm (not_lt.mp hc2) (not_lt.mp hc1)
    refine ⟨⌊100 * q⌋ + 1, rfl, by omega, le_refl _, ?_⟩
    rw [abs_le]; push_cast; constructor <;> linarith

theorem pyRound2_isCents (q : ℚ) : isCents (pyRound2 q) := by
  obtain ⟨z, hz, -, -, -⟩ := pyRound2_exists q
  exact ⟨z, hz⟩

theorem pyRound2_near_lo (q : ℚ) : q - 1/200 ≤ pyRound2 q := by
  obtain ⟨z, hz, -, -, habs⟩ := pyRound2_exists q
  rw [abs_le] at habs
  rw [hz]
  linarith [habs.1]

theorem pyRound2_near_hi (q : ℚ) : pyRound2 q ≤ q + 1/200 := by
  obtain ⟨z, hz, -, -, habs⟩ := pyRound2_exists q
  rw [abs_le] at habs
  rw [hz]
  linarith [habs.2]

theorem pyRound2_ge_floor (q : ℚ) : ((⌊100 * q⌋ : ℤ) : ℚ) / 100 ≤ pyRound2 q := by
  obtain ⟨z, hz, hlo, -, -⟩ := pyRound2_exists q
  rw [hz]
  have : ((⌊100 * q⌋ : ℤ) : ℚ) ≤ (z : ℚ) := by exact_mod_cast hlo
  linarith

theorem pyRound2_le_floor_succ (q : ℚ) : pyRound2 q ≤ (((⌊100 * q⌋ : ℤ) : ℚ) + 1) / 100 := by
  obtain ⟨z, hz, -, hhi, -⟩ := pyRound2_exists q
  rw [hz]
  have : (z : ℚ) ≤ ((⌊100 * q⌋ : ℤ) : ℚ) + 1 := by exact_mod_cast hhi
  linarith

theorem price_bounds (u : ℚ) (hu0 : 0 ≤ u) (hu1 : u < 1) :
    75 ≤ pyRound2 (75 + (750 - 75) * u) ∧ pyRound2 (75 + (750 - 75) * u) ≤ 750 := by
  set q : ℚ := 75 + (750 - 75) * u with hq
  have hq_lo : (75 : ℚ) ≤ q := by rw [hq]; nlinarith
  have hq_hi : q < 750 := by rw [hq]; nlinarith
  constructor
  · have hfl : (7500 : ℤ) ≤ ⌊100 * q⌋ := by
      rw [Int.le_floor]; push_cast; linarith
    have := pyRound2_ge_floor q
    have hc : (7500 : ℚ) ≤ ((⌊100 * q⌋ : ℤ) : ℚ) := by exact_mod_cast hfl
    linarith
  · have hfl : ⌊100 * q⌋ < (75000 : ℤ) := by
      rw [Int.floor_lt]; push_cast; linarith
    have hfl' : ⌊100 * q⌋ ≤ (74999 : ℤ) := by omega
    have := pyRound2_le_floor_succ q
    have hc : ((⌊100 * q⌋ : ℤ) : ℚ) ≤ 74999 := by exact_mod_cast hfl'
    linarith

theorem commission_bounds (p u : ℚ) (hp : 75 ≤ p) (hu0 : 0 ≤ u) (hu1 : u < 1) :
    p / 10 - 1/200 ≤ pyRound2 (p * (1/10 + (1/5 - 1/10) * u)) ∧
    pyRound2 (p * (1/10 + (1/5 - 1/10) * u)) ≤ p / 5 + 1/200 := by
  have hp0 : (0 : ℚ) < p := by linarith
  have hx_lo : p / 10 ≤ p * (1/10 + (1/5 - 1/10) * u) := by nlinarith
  have hx_hi : p * (1/10 + (1/5 - 1/10) * u) ≤ p / 5 := by nlinarith
  constructor
  · linarith [pyRound2_near_lo (p * (1/10 + (1/5 - 1/10) * u))]
  · linarith [pyRound2_near_hi (p * (1/10 + (1/5 - 1/10) * u))]

theorem amenities_table_fact :
    ∀ loc ∈ locations, (amenitiesFor loc).length = 5 ∧ (amenitiesFor loc).Nodup := by
  decide

theorem features_table_fact :
    ∀ t ∈ propertyTypeKeys, (featuresFor t).length = 5 ∧ (featuresFor t).Nodup := by
  decide

theorem inferType_mem (pn : String) : inferType pn ∈ propertyTypeKeys := by
  unfold inferType
  cases hf : propertyTypeKeys.find? (fun t => strContains pn t) with
  | none =>
    show "Hotel" ∈ propertyTypeKeys
    decide
  | some t => simpa using List.mem_of_find?_eq_some hf

theorem openingLines_length (pn loc : String) : (openingLines pn loc).length = 5 := rfl

theorem generate_property_description_spec (pn loc co : String) (g : PyRand) :
    ∃ opening am feat mixed,
      opening ∈ openingLines pn loc ∧
      am.length = min 4 (amenitiesFor loc).length ∧
      am ⊆ amenitiesFor loc ∧
      ((amenitiesFor loc).Nodup → am.Nodup) ∧
      feat.length = min 3 (featuresFor (inferType pn)).length ∧
      feat ⊆ featuresFor (inferType pn) ∧
      ((featuresFor (inferType pn)).Nodup → feat.Nodup) ∧
      List.Perm mixed (am ++ feat) ∧
      (generate_property_description pn loc co g).1 =
        opening ++ " Located " ++ locationDescFor loc ++
          ", our property combines modern comfort with local charm. " ++
          featureText mixed ++ ", " ++ closingFor co := by
  have hop : (choice (openingLines pn loc) g).1 ∈ openingLines pn loc := by
    apply choice_mem
    intro hnil
    have := openingLines_length pn loc
    rw [hnil] at this
    cases this
  obtain ⟨ham_len, ham_sub, ham_nd⟩ :=
    sample_spec (min 4 (amenitiesFor loc).length) (amenitiesFor loc)
      (choice (openingLines pn loc) g).2 (Nat.min_le_right _ _)
  obtain ⟨hft_len, hft_sub, hft_nd⟩ :=
    sample_spec (min 3 (featuresFor (inferType pn)).length) (featuresFor (inferType pn))
      (sample (amenitiesFor loc) (min 4 (amenitiesFor loc).length)
        (choice (openingLines pn loc) g).2).2 (Nat.min_le_right _ _)
  exact ⟨(choice (openingLines pn loc) g).1,
    (sample (amenitiesFor loc) (min 4 (amenitiesFor loc).length)
      (choice (openingLines pn loc) g).2).1,
    (sample (featuresFor (inferType pn)) (min 3 (featuresFor (inferType pn)).length)
      (sample (amenitiesFor loc) (min 4 (amenitiesFor loc).length)
        (choice (openingLines pn loc) g).2).2).1,
    (shuffle
      ((sample (amenitiesFor loc) (min 4 (amenitiesFor loc).length)
          (choice (openingLines pn loc) g).2).1 ++
        (sample (featuresFor (inferType pn)) (min 3 (featuresFor (inferType pn)).length)
          (sample (amenitiesFor loc) (min 4 (amenitiesFor loc).length)
            (choice (openingLines pn loc) g).2).2).1)
      (sample (featuresFor (inferType pn)) (min 3 (featuresFor (inferType pn)).length)
        (sample (amenitiesFor loc) (min 4 (amenitiesFor loc).length)
          (choice (openingLines pn loc) g).2).2).2).1,
    hop, ham_len, ham_sub, ham_nd, hft_len, hft_sub, hft_nd,
    shuffle_perm _ _, rfl⟩

theorem choice_fst (xs : List String) (g : PyRand) :
    (choice xs g).1 = xs.getD (g.ints g.pos % xs.length) "" := rfl

theorem state_mem_of_country (c : String) (hc : c ∈ countries) (v : Nat) :
    (get_country_specific_data c).2.getD (v % (get_country_specific_data c).2.length) "" ∈
      (countries_states.lookup c).getD [] := by
  fin_cases hc
  · exact getD_mod_mem us_states (by decide) v
  · exact getD_mod_mem canadian_provinces (by decide) v
  · exact getD_mod_mem mexican_states (by decide) v

theorem genRecord_state_mem (names emails : List String) (i : Nat) (g : PyRand)
    (fk : FakerGen) :
    (genRecord names emails i g fk).1.propertyState ∈
      (countries_states.lookup (genRecord names emails i g fk).1.propertyCountry).getD [] := by
  rw [genRecord_state, genRecord_country]
  exact state_mem_of_country _ (choice_mem countries (by decide) g) _

theorem runCorpus_length (n fuel : Nat) (order : List String → List String)
    (g : PyRand) (fk : FakerGen) (l : List PropertyRecord)
    (h : runCorpus n fuel order g fk = some l) : l.length = n := by
  unfold runCorpus at h
  cases h2 : unique_property_names n fuel order g fk with
  | none => rw [h2] at h; cases h
  | some res =>
    obtain ⟨names, g1, fk1⟩ := res
    rw [h2] at h
    simp only [Option.some.injEq] at h
    rw [← h]
    exact generateProperties_length names (unique_emails names) n 0 g1 fk1

theorem runCorpus_eq (n : Nat) (order : List String → List String) (g : PyRand)
    (fk : FakerGen)
    (hinj : ∀ i j, i < n → j < n → nameAt g fk i = nameAt g fk j → i = j) :
    runCorpus n n order g fk = some
      (generateProperties (order ((List.range n).map (nameAt g fk)))
        (unique_emails (order ((List.range n).map (nameAt g fk)))) n 0
        (g.bump n) (fk.bump n)).1 := by
  unfold runCorpus unique_property_names
  rw [uniqueNamesLoop_success n g fk hinj]

theorem companyRep_length (p : Nat) : (companyRep p).length = p := by
  show (List.replicate p 'a').length = p
  exact List.length_replicate p 'a'

theorem nameAt_rep_length (g : PyRand) (fk : FakerGen)
    (h1 : ∀ p, g.ints p = 1) (h2 : ∀ p, fk.companyF p = companyRep p) (i : Nat) :
    (nameAt g fk i).length = fk.pos + i + 6 := by
  unfold nameAt
  rw [h1, h2]
  rw [String.length_append, String.length_append, companyRep_length]
  rfl

theorem nameAt_rep_inj (g : PyRand) (fk : FakerGen)
    (h1 : ∀ p, g.ints p = 1) (h2 : ∀ p, fk.companyF p = companyRep p) :
    ∀ i j, i < 1000 → j < 1000 → nameAt g fk i = nameAt g fk j → i = j := by
  intro i j _ _ he
  have hlen := congrArg String.length he
  rw [nameAt_rep_length g fk h1 h2 i, nameAt_rep_length g fk h1 h2 j] at hlen
  omega

theorem companyC2_length (i : Nat) :
    (companyC2 i).length = if i = 0 then 4 else if i = 1 then 3 else i + 3 := by
  match i with
  | 0 => rfl
  | 1 => rfl
  | k + 2 =>
    rw [if_neg (by omega), if_neg (by omega)]
    show (List.replicate (k + 5) 'a').length = k + 2 + 3
    rw [List.length_replicate]

theorem nameAt_C2_length (m : Nat) :
    (nameAt gOnes fkC2 m).length = (companyC2 m).length + 6 := by
  show (companyC2 (0 + m) ++ " " ++ "Hotel").length = (companyC2 m).length + 6
  rw [Nat.zero_add, String.length_append, String.length_append]
  rfl

theorem nameAt_C2_inj :
    ∀ i j, i < 1000 → j < 1000 → nameAt gOnes fkC2 i = nameAt gOnes fkC2 j → i = j := by
  intro i j _ _ he
  have hlen := congrArg String.length he
  rw [nameAt_C2_length i, nameAt_C2_length j, companyC2_length i, companyC2_length j] at hlen
  split_ifs at hlen <;> omega

theorem unique_property_names_units (n fuel : Nat) (order : List String → List String)
    (g : PyRand) (fk : FakerGen) (names : List String) (g' : PyRand) (fk' : FakerGen)
    (h : unique_property_names n fuel order g fk = some (names, g', fk')) :
    g'.units = g.units := by
  unfold unique_property_names at h
  cases hL : uniqueNamesLoop n fuel [] g fk with
  | none => rw [hL] at h; cases h
  | some res =>
    obtain ⟨acc, g2, fk2⟩ := res
    rw [hL] at h
    simp only [Option.some.injEq, Prod.mk.injEq] at h
    obtain ⟨-, rfl, -⟩ := h
    exact (uniqueNamesLoop_some n fuel [] g fk acc g2 fk2 hL List.nodup_nil (by simp)).2.2.1

/-- C4: for every record of the generated corpus, the country is drawn first
(the record's first generator draw, a uniform `random.choice` over
`countries`), and `propertyState` is a member of `countries_states[country]`,
the subdivision list of that record's country (US states, Canadian provinces
and territories, Mexican states). -/
theorem C4_state_consistent (fuel : Nat) (order : List String → List String)
    (g : PyRand) (fk : FakerGen) :
    OptionHolds (fun l => ∀ r ∈ l,
        r.propertyState ∈ (countries_states.lookup r.propertyCountry).getD [])
      (runCorpus 1000 fuel order g fk) ∧
    (∀ (names emails : List String) (i : Nat) (g' : PyRand) (fk' : FakerGen),
      (genRecord names emails i g' fk').1.propertyCountry = (choice countries g').1) := by
  constructor
  · unfold runCorpus
    cases h : unique_property_names 1000 fuel order g fk with
    | none => trivial
    | some res =>
      obtain ⟨names, g1, fk1⟩ := res
      intro r hr
      obtain ⟨j, g', fk', -, -, -, rfl⟩ :=
        generateProperties_mem names (unique_emails names) 1000 0 g1 fk1 r hr
      exact genRecord_state_mem names (unique_emails names) j g' fk'
  · intro names emails i g' fk'
    exact genRecord_country names emails i g' fk'

/-- C5: the `id` fields of the generated corpus are exactly `1..1000`, in
output order, with no gaps and no repeats. -/
theorem C5_sequential_ids (fuel : Nat) (order : List String → List String)
    (g : PyRand) (fk : FakerGen) :
    OptionHolds (fun l => l.map (fun r => r.id) = List.range' 1 1000)
      (runCorpus 1000 fuel order g fk) := by
  unfold runCorpus
  cases h : unique_property_names 1000 fuel order g fk with
  | none => trivial
  | some res =>
    obtain ⟨names, g1, fk1⟩ := res
    exact generateProperties_map_id names (unique_emails names) 1000 0 g1 fk1

/-- C6: every record's `propertyEmailAddress` equals `deriveEmail` of its
`propertyName` (lower-case, drop spaces, replace `&` by `and`, drop `-` and
`,`, wrap in `info@...com`): re-deriving the email from the stored name
reproduces the stored email. -/
theorem C6_email_pure_function (fuel : Nat) (order : List String → List String)
    (g : PyRand) (fk : FakerGen) (hord : ∀ l, List.Perm (order l) l) :
    OptionHolds (fun l => ∀ r ∈ l, r.propertyEmailAddress = deriveEmail r.propertyName)
      (runCorpus 1000 fuel order g fk) := by
  unfold runCorpus
  cases h : unique_property_names 1000 fuel order g fk with
  | none => trivial
  | some res =>
    obtain ⟨names, g1, fk1⟩ := res
    obtain ⟨hnd, hlen, -⟩ :=
      unique_property_names_some 1000 fuel order g fk names g1 fk1 hord h
    intro r hr
    obtain ⟨j, g', fk', hj0, hj1, -, rfl⟩ :=
      generateProperties_mem names (unique_emails names) 1000 0 g1 fk1 r hr
    rw [genRecord_email, genRecord_name]
    exact getD_map_lt deriveEmail names j (by omega)

/-- C7: the produced document is a single JSON object whose only top-level key
is "properties", holding the ordered array of exactly 1000 records, each with
exactly the 14 fields in order and correctly typed values. -/
theorem C7_output_shape (fuel : Nat) (order : List String → List String)
    (g : PyRand) (fk : FakerGen) :
    OptionHolds (fun j => outputOk j = true) (runScript 1000 fuel order g fk) := by
  unfold runScript
  cases h : runCorpus 1000 fuel order g fk with
  | none => trivial
  | some l =>
    have hlen := runCorpus_length 1000 fuel order g fk l h
    show ((l.map recordToJson).length == 1000 && (l.map recordToJson).all recordJsonOk) = true
    rw [Bool.and_eq_true, beq_iff_eq, List.length_map, hlen, List.all_eq_true]
    refine ⟨rfl, ?_⟩
    intro x hx
    obtain ⟨r, hr, rfl⟩ := List.mem_map.mp hx
    rfl

/-- C8: every record's description is the concatenation of a randomly chosen
opening template, the location clause (with generic fallback), a feature text
built from 4 amenities of the location's amenity list and 3 features of the
feature list of the inferred type (first type-suffix substring of the name,
default "Hotel"), sampled without replacement and shuffled together, and the
country-specific closing (generic fallback for unknown countries). -/
theorem C8_description_composition (names emails : List String) (i : Nat)
    (g : PyRand) (fk : FakerGen) :
    ∃ opening am feat mixed,
      opening ∈ openingLines (genRecord names emails i g fk).1.propertyName
        (genRecord names emails i g fk).1.propertyLocation ∧
      am.length = 4 ∧ am.Nodup ∧
      am ⊆ amenitiesFor (genRecord names emails i g fk).1.propertyLocation ∧
      feat.length = 3 ∧ feat.Nodup ∧
      feat ⊆ featuresFor (inferType (genRecord names emails i g fk).1.propertyName) ∧
      List.Perm mixed (am ++ feat) ∧
      (genRecord names emails i g fk).1.propertyDescription =
        opening ++ " Located " ++
          locationDescFor (genRecord names emails i g fk).1.propertyLocation ++
          ", our property combines modern comfort with local charm. " ++
          featureText mixed ++ ", " ++
          closingFor (genRecord names emails i g fk).1.propertyCountry := by
  have hloc : (genRecord names emails i g fk).1.propertyLocation ∈ locations := by
    rw [genRecord_location]
    exact getD_mod_mem locations (by decide) _
  obtain ⟨hlen5, hnd5⟩ := amenities_table_fact _ hloc
  obtain ⟨flen5, fnd5⟩ :=
    features_table_fact _ (inferType_mem (genRecord names emails i g fk).1.propertyName)
  obtain ⟨op, am, ft, mx, hop, hamlen, hamsub, hamnd, hftlen, hftsub, hftnd, hperm, heq⟩ :=
    generate_property_description_spec (genRecord names emails i g fk).1.propertyName
      (genRecord names emails i g fk).1.propertyLocation
      (genRecord names emails i g fk).1.propertyCountry (g.bump 7)
  refine ⟨op, am, ft, mx, hop, ?_, hamnd hnd5, hamsub, ?_, hftnd fnd5, hftsub, hperm, ?_⟩
  · rw [hamlen, hlen5]; omega
  · rw [hftlen, flen5]; omega
  · rw [genRecord_descr, ← genRecord_name names emails i g fk,
      ← genRecord_location names emails i g fk, ← genRecord_country names emails i g fk]
    exact heq

/-- C9: every record's `propertyAirportProximity` has the exact form
"<d> miles from <city> International Airport" with `d` a `randint(2,30)` draw
(so `2 ≤ d ≤ 30`) and the city a separate, second `city()` draw of the Faker
stream, distinct from the draw that produced `propertyCity`. -/
theorem C9_airport_proximity (names emails : List String) (i : Nat)
    (g : PyRand) (fk : FakerGen) :
    ∃ d : Nat, 2 ≤ d ∧ d ≤ 30 ∧
      (genRecord names emails i g fk).1.propertyAirportProximity =
        toString d ++ " miles from " ++
          fk.cityF (get_country_specific_data
            (genRecord names emails i g fk).1.propertyCountry).1 (fk.pos + 3) ++
          " International Airport" ∧
      (genRecord names emails i g fk).1.propertyCity =
        fk.cityF (get_country_specific_data
          (genRecord names emails i g fk).1.propertyCountry).1 fk.pos := by
  refine ⟨2 + g.ints (g.pos + 3) % (30 - 2 + 1), by omega, ?_, ?_, ?_⟩
  · have h : g.ints (g.pos + 3) % (30 - 2 + 1) < 30 - 2 + 1 := Nat.mod_lt _ (by omega)
    omega
  · rw [genRecord_country]
    exact genRecord_airport names emails i g fk
  · rw [genRecord_country]
    exact genRecord_city names emails i g fk

/-- C10: every record's `propertyCountry` is one of exactly the three keys of
`countries_states`: "USA", "Canada", "Mexico". -/
theorem C10_country_enumeration (fuel : Nat) (order : List String → List String)
    (g : PyRand) (fk : FakerGen) :
    countries = ["USA", "Canada", "Mexico"] ∧
    OptionHolds (fun l => ∀ r ∈ l, r.propertyCountry ∈ countries)
      (runCorpus 1000 fuel order g fk) := by
  refine ⟨rfl, ?_⟩
  unfold runCorpus
  cases h : unique_property_names 1000 fuel order g fk with
  | none => trivial
  | some res =>
    obtain ⟨names, g1, fk1⟩ := res
    intro r hr
    obtain ⟨j, g', fk', -, -, -, rfl⟩ :=
      generateProperties_mem names (unique_emails names) 1000 0 g1 fk1 r hr
    rw [genRecord_country]
    exact choice_mem countries (by decide) g'

/-- C2 (amended): the `propertyName` values of the corpus are pairwise
distinct, and `propertyEmailAddress` is the pure function `deriveEmail` of
`propertyName`; distinct names do not in general give distinct emails. -/
theorem C2_names_distinct (fuel : Nat) (order : List String → List String)
    (g : PyRand) (fk : FakerGen) (hord : ∀ l, List.Perm (order l) l) :
    OptionHolds (fun l => (l.map (fun r => r.propertyName)).Nodup ∧
        ∀ r ∈ l, r.propertyEmailAddress = deriveEmail r.propertyName)
      (runCorpus 1000 fuel order g fk) := by
  unfold runCorpus
  cases h : unique_property_names 1000 fuel order g fk with
  | none => trivial
  | some res =>
    obtain ⟨names, g1, fk1⟩ := res
    obtain ⟨hnd, hlen, -⟩ :=
      unique_property_names_some 1000 fuel order g fk names g1 fk1 hord h
    constructor
    · rw [generateProperties_map_name, ← List.range_eq_range', ← hlen, map_getD_range]
      exact hnd
    · intro r hr
      obtain ⟨j, g', fk', hj0, hj1, -, rfl⟩ :=
        generateProperties_mem names (unique_emails names) 1000 0 g1 fk1 r hr
      rw [genRecord_email, genRecord_name]
      exact getD_map_lt deriveEmail names j (by omega)

/-- C3 (amended): for every record of the corpus, the price is a whole-cent
value in [75, 750]; the commission is a whole-cent value within half a cent of
`price * u` for a `u` drawn from [0.1, 0.2), hence lies in
[0.10 * price - 0.005, 0.20 * price + 0.005]. -/
theorem C3_price_commission (fuel : Nat) (order : List String → List String)
    (g : PyRand) (fk : FakerGen) (hu : ∀ p, 0 ≤ g.units p ∧ g.units p < 1) :
    OptionHolds (fun l => ∀ r ∈ l,
        isCents r.propertyPricePerNight ∧
        75 ≤ r.propertyPricePerNight ∧ r.propertyPricePerNight ≤ 750 ∧
        isCents r.propertyCommissionAmount ∧
        r.propertyPricePerNight / 10 - 1/200 ≤ r.propertyCommissionAmount ∧
        r.propertyCommissionAmount ≤ r.propertyPricePerNight / 5 + 1/200)
      (runCorpus 1000 fuel order g fk) := by
  unfold runCorpus
  cases h : unique_property_names 1000 fuel order g fk with
  | none => trivial
  | some res =>
    obtain ⟨names, g1, fk1⟩ := res
    have hg1 : g1.units = g.units :=
      unique_property_names_units 1000 fuel order g fk names g1 fk1 h
    intro r hr
    obtain ⟨j, g', fk', -, -, hunits, rfl⟩ :=
      generateProperties_mem names (unique_emails names) 1000 0 g1 fk1 r hr
    rw [genRecord_price, genRecord_commission]
    have hu1 : 0 ≤ g'.units (g'.pos + 4) ∧ g'.units (g'.pos + 4) < 1 := by
      rw [hunits, hg1]; exact hu _
    have hu2 : 0 ≤ g'.units (g'.pos + 5) ∧ g'.units (g'.pos + 5) < 1 := by
      rw [hunits, hg1]; exact hu _
    obtain ⟨hp1, hp2⟩ := price_bounds _ hu1.1 hu1.2
    obtain ⟨hc1, hc2⟩ := commission_bounds
      (pyRound2 (75 + (750 - 75) * g'.units (g'.pos + 4))) _ hp1 hu2.1 hu2.2
    exact ⟨pyRound2_isCents _, hp1, hp2, pyRound2_isCents _, hc1, hc2⟩

-- With the claim-level proofs done, `OptionHolds` is made irreducible so
-- that applying the theorems at concrete oracle streams does not force the
-- evaluation of the 1000-step pipeline during unification.
attribute [irreducible] OptionHolds

/-- Witness for C2: the amended statement applied at a concrete order (the
identity) and concrete oracle streams. -/
theorem C2_names_distinct_witness :
    OptionHolds (fun l => (l.map (fun r => r.propertyName)).Nodup ∧
        ∀ r ∈ l, r.propertyEmailAddress = deriveEmail r.propertyName)
      (runCorpus 1000 1000 id gOnes fkRep) :=
  C2_names_distinct 1000 id gOnes fkRep (fun l => List.Perm.refl l)

/-- Witness for C3: the amended statement applied at concrete oracle streams
whose unit draws are all 0. -/
theorem C3_price_commission_witness :
    OptionHolds (fun l => ∀ r ∈ l,
        isCents r.propertyPricePerNight ∧
        75 ≤ r.propertyPricePerNight ∧ r.propertyPricePerNight ≤ 750 ∧
        isCents r.propertyCommissionAmount ∧
        r.propertyPricePerNight / 10 - 1/200 ≤ r.propertyCommissionAmount ∧
        r.propertyCommissionAmount ≤ r.propertyPricePerNight / 5 + 1/200)
      (runCorpus 1000 1000 id gOnes fkRep) :=
  C3_price_commission 1000 id gOnes fkRep
    (fun p => ⟨le_refl 0, by show (0:ℚ) < 1; norm_num⟩)

/-- Witness for C6: the theorem applied at the identity set order and concrete
oracle streams. -/
theorem C6_email_pure_function_witness :
    OptionHolds (fun l => ∀ r ∈ l, r.propertyEmailAddress = deriveEmail r.propertyName)
      (runCorpus 1000 1000 id gOnes fkRep) :=
  C6_email_pure_function 1000 id gOnes fkRep (fun l => List.Perm.refl l)

/-- C1 divergence: with both seeded oracle streams held fixed, two different
set-iteration orders of `list(names)` (as produced by two different per-process
string hash salts — here the identity order and a rotation) produce different
corpora: record 0 is paired with a different property name.  The corpus is
therefore not a function of the two seeds alone. -/
theorem C1_salt_divergence :
    runCorpus 1000 1000 id gOnes fkRep ≠
      runCorpus 1000 1000 (fun l => l.rotate 1) gOnes fkRep := by
  intro h
  have hinj := nameAt_rep_inj gOnes fkRep (fun p => rfl) (fun p => rfl)
  rw [runCorpus_eq 1000 id gOnes fkRep hinj,
      runCorpus_eq 1000 (fun l => l.rotate 1) gOnes fkRep hinj] at h
  have h3 := congrArg (fun o => ((o.getD []).getD 0 default).propertyName) h
  simp only [Option.getD_some] at h3
  rw [generateProperties_head _ _ 1000 0 _ _ (by omega),
      generateProperties_head _ _ 1000 0 _ _ (by omega),
      genRecord_name, genRecord_name] at h3
  simp only [id_eq] at h3
  have hlen : ((List.range 1000).map (nameAt gOnes fkRep)).length = 1000 := by simp
  have hrot : (((List.range 1000).map (nameAt gOnes fkRep)).rotate 1).getD 0 "" =
      nameAt gOnes fkRep 1 := by
    have hl : 0 < (((List.range 1000).map (nameAt gOnes fkRep)).rotate 1).length := by
      rw [List.length_rotate, hlen]; omega
    rw [List.getD_eq_getElem _ _ hl, List.getElem_rotate]
    simp [List.getElem_map, List.getElem_range]
  rw [getD_map_range _ 1000 0 (by omega), hrot] at h3
  exact absurd (hinj 0 1 (by omega) (by omega) h3) (by omega)

set_option maxRecDepth 8000 in
/-- C2 counterexample: a run whose first two property names are distinct
("Ab-a Hotel" and "Aba Hotel") but whose derived emails coincide (both slugs
are "abahotel"): distinct names do not give distinct emails. -/
theorem C2_email_collision :
    (recAt (runCorpus 1000 1000 id gOnes fkC2) 0).propertyName ≠
      (recAt (runCorpus 1000 1000 id gOnes fkC2) 1).propertyName ∧
    (recAt (runCorpus 1000 1000 id gOnes fkC2) 0).propertyEmailAddress =
      (recAt (runCorpus 1000 1000 id gOnes fkC2) 1).propertyEmailAddress ∧
    (runCorpus 1000 1000 id gOnes fkC2).isSome = true := by
  have h1 := runCorpus_eq 1000 id gOnes fkC2 nameAt_C2_inj
  have hrec : ∀ j, j < 1000 →
      (recAt (runCorpus 1000 1000 id gOnes fkC2) j).propertyName =
        ((List.range 1000).map (nameAt gOnes fkC2)).getD j "" ∧
      (recAt (runCorpus 1000 1000 id gOnes fkC2) j).propertyEmailAddress =
        (unique_emails ((List.range 1000).map (nameAt gOnes fkC2))).getD j "" := by
    intro j hj
    unfold recAt
    rw [h1, Option.getD_some]
    have h2 := generateProperties_getD (id ((List.range 1000).map (nameAt gOnes fkC2)))
      (unique_emails (id ((List.range 1000).map (nameAt gOnes fkC2)))) 1000 0
      (gOnes.bump 1000) (fkC2.bump 1000) j hj
    simp only [id_eq, Nat.zero_add] at h2
    simp only [id_eq]
    exact h2
  obtain ⟨hn0, he0⟩ := hrec 0 (by omega)
  obtain ⟨hn1, he1⟩ := hrec 1 (by omega)
  refine ⟨?_, ?_, ?_⟩
  · rw [hn0, hn1, getD_map_range _ 1000 0 (by omega), getD_map_range _ 1000 1 (by omega)]
    intro hc
    exact absurd (nameAt_C2_inj 0 1 (by omega) (by omega) hc) (by omega)
  · rw [he0, he1]
    unfold unique_emails
    rw [getD_map_lt deriveEmail _ 0 (by simp), getD_map_lt deriveEmail _ 1 (by simp),
        getD_map_range _ 1000 0 (by omega), getD_map_range _ 1000 1 (by omega)]
    decide
  · rw [h1]
    rfl

theorem pyRound2_eq_down (q : ℚ) (z : ℤ) (h1 : (z:ℚ) ≤ 100 * q)
    (h2 : 100 * q < (z:ℚ) + 1/2) :
    pyRound2 q = (z:ℚ)/100 := by
  have hfl : ⌊100 * q⌋ = z := by
    rw [Int.floor_eq_iff]
    exact ⟨h1, by linarith⟩
  unfold pyRound2
  dsimp only
  rw [hfl, if_pos (by linarith : 100 * q - (z:ℚ) < 1/2)]

/-- C3 counterexample: a run whose record 0 has price 75.03 and commission
7.50; since 0.10 * 75.03 = 7.503 > 7.50, the rounded commission falls outside
[0.10 * price, 0.20 * price]. -/
theorem C3_commission_outside :
    (recAt (runCorpus 1000 1000 id gC3 fkRep) 0).propertyPricePerNight = 7503/100 ∧
    (recAt (runCorpus 1000 1000 id gC3 fkRep) 0).propertyCommissionAmount = 15/2 ∧
    (recAt (runCorpus 1000 1000 id gC3 fkRep) 0).propertyCommissionAmount <
      1/10 * (recAt (runCorpus 1000 1000 id gC3 fkRep) 0).propertyPricePerNight ∧
    (runCorpus 1000 1000 id gC3 fkRep).isSome = true := by
  have hinj := nameAt_rep_inj gC3 fkRep (fun p => rfl) (fun p => rfl)
  have h1 := runCorpus_eq 1000 id gC3 fkRep hinj
  have hrec : recAt (runCorpus 1000 1000 id gC3 fkRep) 0 =
      (genRecord (id ((List.range 1000).map (nameAt gC3 fkRep)))
        (unique_emails (id ((List.range 1000).map (nameAt gC3 fkRep)))) 0
        (gC3.bump 1000) (fkRep.bump 1000)).1 := by
    unfold recAt
    rw [h1, Option.getD_some]
    exact generateProperties_head _ _ 1000 0 _ _ (by omega)
  have harg : (75:ℚ) + (750 - 75) * (3/67500) = 7503/100 := by norm_num
  have hprice : (recAt (runCorpus 1000 1000 id gC3 fkRep) 0).propertyPricePerNight =
      7503/100 := by
    rw [hrec, genRecord_price]
    show pyRound2 (75 + (750 - 75) * (3/67500)) = 7503/100
    rw [harg, pyRound2_eq_down (7503/100) 7503 (by norm_num) (by norm_num)]
    norm_num
  have hcomm : (recAt (runCorpus 1000 1000 id gC3 fkRep) 0).propertyCommissionAmount =
      15/2 := by
    rw [hrec, genRecord_commission]
    show pyRound2 (pyRound2 (75 + (750 - 75) * (3/67500)) *
      (1/10 + (1/5 - 1/10) * (1/10000))) = 15/2
    rw [harg, pyRound2_eq_down (7503/100) 7503 (by norm_num) (by norm_num)]
    have harg2 : ((7503:ℤ):ℚ)/100 * (1/10 + (1/5 - 1/10) * (1/10000)) =
        75037503/10000000 := by
      norm_num
    rw [harg2, pyRound2_eq_down (75037503/10000000) 750 (by norm_num) (by norm_num)]
    norm_num
  refine ⟨hprice, hcomm, ?_, ?_⟩
  · rw [hprice, hcomm]
    norm_num
  · rw [h1]
    rfl
